import Mathlib

/-!
Shallow embedding of the VedaLipi pipeline (`vedalipi_ml_pipeline.py`).

The program orchestrates four outbound HTTP calls: an OCR call, two
generative-model calls (translation, interpretation) and a chat call.
Each outbound exchange is modelled by an oracle function from the request
payload to `Except String R`, where `Except.error m` stands for a Python
exception with message `m` escaping the `requests`/JSON layer, and `R`
models the decoded JSON response shape that the parsing code inspects.

A function that can let a Python exception escape is embedded with result
type `Except String A`; a function whose `try/except` swallows every
exception is embedded with an `Except`-free (or `Except.ok`-only) result.

Python `str.strip()` is modelled by `py_strip` (drop whitespace from both
ends), and Python `str.isalpha` is kept as an explicit parameter
`isalpha : Char → Bool` since it is a Unicode property of the host
language.
-/

deriving instance DecidableEq for Except

namespace Vedalipi

/-- Python `str.strip()`: remove leading and trailing whitespace. -/
def py_strip (s : String) : String :=
  String.mk (((s.data.dropWhile Char.isWhitespace).reverse.dropWhile
    Char.isWhitespace).reverse)

/-- Decoded shape of the Vision OCR JSON response, as far as the code
inspects it: an optional top-level `error` object (its message), and the
list of `responses`, each carrying either its `textAnnotations` list of
`description` strings, or `none` when the field is missing or falsy. -/
structure OcrResponse where
  error : Option String
  responses : List (Option (List String))
deriving DecidableEq, Repr

/-- Decoded shape of a Gemini `generateContent` JSON response, as far as
the code inspects it: an optional top-level `error` message, and the list
of `candidates`, each carrying either its `content.parts` list of `text`
fields, or `none` when `content` or `parts` is missing or falsy. -/
structure GeminiResponse where
  error : Option String
  candidates : List (Option (List String))
deriving DecidableEq, Repr

/-- The `description` of the first annotation of the first response,
or `""` when `responses` is empty or the first response has no usable
`textAnnotations` (lines 82-87 of the source). -/
def first_ann_text (r : OcrResponse) : String :=
  match r.responses with
  | (some (d :: _)) :: _ => d
  | _ => ""

/-- Whether the first response carries at least one text annotation, i.e.
whether the truthiness checks of lines 82-84 all pass. -/
def has_ann (r : OcrResponse) : Bool :=
  match r.responses with
  | (some (_ :: _)) :: _ => true
  | _ => false

/-- The `text` of the first part of the first candidate, when the shape
checks of the source (candidates nonempty, first candidate has truthy
`content` and `parts`) pass; `none` otherwise. -/
def first_candidate_text (r : GeminiResponse) : Option String :=
  match r.candidates with
  | (some (t :: _)) :: _ => some t
  | _ => none

/-- `extract_text_from_image` (lines 41-93).  The oracle `ocr` models the
whole HTTP exchange with the Vision endpoint on the given image bytes.
The enclosing `try/except` catches every exception — the endpoint-error
`ValueError` of line 79 included — and returns `None`, so the embedding
always returns `Except.ok`: `Except.ok none` models `return None`, and
`Except.ok (some s)` models `return extracted_text.strip()`. -/
def extract_text_from_image (ocr : List Nat → Except String OcrResponse)
    (image_content : List Nat) : Except String (Option String) :=
  Except.ok (
    match ocr image_content with
    | Except.error _ => none
    | Except.ok result =>
      match result.error with
      | some _ => none
      | none => some (py_strip (first_ann_text result)))

/-- The character filter of line 100: keep a character when `c.isalpha()`
holds or `c in ' -'`, i.e. `c` is a space or a hyphen. -/
def keep_letters_space_hyphen (isalpha : Char → Bool) (s : String) : String :=
  String.mk (s.data.filter (fun c => isalpha c || c == ' ' || c == '-'))

/-- `transliterate_sanskrit` (lines 96-104).  The library call
`transliterate(text, DEVANAGARI, IAST)` is third-party code, modelled by
the oracle `translit`; a library exception is logged and re-raised by the
source, hence propagates as `Except.error`.  On success the result is
filtered by the line-100 comprehension. -/
def transliterate_sanskrit (translit : String → Except String String)
    (isalpha : Char → Bool) (sanskrit_text : String) : Except String String :=
  match translit sanskrit_text with
  | Except.error e => Except.error e
  | Except.ok t => Except.ok (keep_letters_space_hyphen isalpha t)

/-- The translation prompt of lines 110-114. -/
def translate_prompt (text source_language target_language : String) : String :=
  "Translate the following " ++ source_language ++ " text to " ++ target_language ++ ":\n" ++
  "Text: " ++ text ++ "\n" ++
  "Provide only the translated text in " ++ target_language ++ "."

/-- `translate_to_english` (lines 106-155).  The oracle `gem` models the
Gemini HTTP exchange on the outbound prompt.  An endpoint `error` field
raises `ValueError("Gemini API error: ...")`; the `except` clause logs and
re-raises, so every exception propagates as `Except.error`. -/
def translate_to_english (gem : String → Except String GeminiResponse)
    (text : String) (source_language : String := "sa")
    (target_language : String := "en") : Except String String :=
  match gem (translate_prompt text source_language target_language) with
  | Except.error e => Except.error e
  | Except.ok result =>
    match result.error with
    | some m => Except.error ("Gemini API error: " ++ m)
    | none =>
      let translated_text :=
        match first_candidate_text result with
        | some t => t
        | none => ""
      Except.ok (py_strip translated_text)

/-- The interpretation prompt of lines 162-167. -/
def interpret_prompt (english_text : String) : String :=
  "The following is a translated excerpt from an ancient Sanskrit manuscript:\n" ++
  "Text: " ++ english_text ++ "\n\n" ++
  "Provide a concise summary (2-3 sentences) of the text and a brief contextual analysis " ++
  "(1-2 sentences) identifying if it contains spiritual, philosophical, or historical insights typical of Vedic literature."

/-- `interpret_text` (lines 158-208).  Same structure as the translator,
but the structural fallback is the literal `"Interpretation failed."`;
exceptions (network failure, endpoint `error` field) are re-raised by the
`except` clause, hence propagate as `Except.error`. -/
def interpret_text (gem : String → Except String GeminiResponse)
    (english_text : String) : Except String String :=
  match gem (interpret_prompt english_text) with
  | Except.error e => Except.error e
  | Except.ok result =>
    match result.error with
    | some m => Except.error ("Gemini API error: " ++ m)
    | none =>
      let interpretation :=
        match first_candidate_text result with
        | some t => t
        | none => "Interpretation failed."
      Except.ok (py_strip interpretation)

/-- The process-wide mutable record `global_context` (lines 34-38). -/
structure Context where
  sanskrit_text : String
  english_text : String
  interpretation : String
deriving DecidableEq, Repr

/-- Initial value of `global_context`: three empty strings. -/
def global_context_init : Context := ⟨"", "", ""⟩

/-- The chat prompt of lines 215-221, embedding the stored context and
the user query. -/
def chat_prompt (g : Context) (user_query : String) : String :=
  "The following is an excerpt from an ancient Sanskrit manuscript:\n" ++
  "Sanskrit Text: " ++ g.sanskrit_text ++ "\n" ++
  "English Translation: " ++ g.english_text ++ "\n" ++
  "Interpretation: " ++ g.interpretation ++ "\n\n" ++
  "User Query: " ++ user_query

/-- `query_gemini_api` (lines 211-262).  The catch-all `except` returns
`f"Error: {str(e)}"` instead of re-raising, so the embedding is a total
function into `String`: no exception escapes.  The endpoint-error
`ValueError` of line 247 carries the message `"Gemini API error: ..."`
and is caught by the same clause. -/
def query_gemini_api (gem : String → Except String GeminiResponse)
    (g : Context) (user_query : String) : String :=
  match gem (chat_prompt g user_query) with
  | Except.error e => "Error: " ++ e
  | Except.ok result =>
    match result.error with
    | some m => "Error: " ++ ("Gemini API error: " ++ m)
    | none =>
      match first_candidate_text result with
      | some t => t
      | none => "Sorry, I couldn\x27t generate a response."

/-- The uploaded multipart file part: a filename and raw bytes. -/
structure FilePart where
  filename : String
  content : List Nat
deriving DecidableEq, Repr

/-- The outbound calls `/process` can make, with the argument each stage
is invoked on: the OCR call on the image bytes, the translation call on
its source text, the interpretation call on its English text. -/
inductive Call where
  | ocr (image : List Nat)
  | translate (text : String)
  | interpret (text : String)
deriving DecidableEq, Repr

/-- JSON body of a `/process` response: either `{'error': msg}` or the
success object `{sanskrit_text, english_text, interpretation}`. -/
inductive ProcBody where
  | error (msg : String)
  | ok (sanskrit_text english_text interpretation : String)
deriving DecidableEq, Repr

/-- Outcome of one `/process` request: HTTP status, JSON body, the value
of `global_context` after the request, and the list of outbound pipeline
calls made (in order). -/
structure ProcResult where
  status : Nat
  body : ProcBody
  ctx : Context
  calls : List Call
deriving DecidableEq, Repr

/-- The external collaborators of one request, as oracles: the OCR
exchange, the third-party transliteration function, the host language
`str.isalpha` predicate, and the Gemini exchange (shared by translation,
interpretation and chat, keyed by the outbound prompt). -/
structure Oracles where
  ocr : List Nat → Except String OcrResponse
  translit : String → Except String String
  isalpha : Char → Bool
  gem : String → Except String GeminiResponse

/-- The `/process` handler `process_image` (lines 747-789), as a function
of the parsed request (`none` when the multipart body has no `file` part)
and the current `global_context`.  Any exception raised inside the `try`
is converted to a 500 response with the exception message; the empty
extraction and empty translation checks raise `ValueError` with the
messages of lines 766 and 772.  `global_context` is mutated only in the
success branch (lines 778-780). -/
def process_image (req : Option FilePart) (w : Oracles) (g : Context) : ProcResult :=
  match req with
  | none => ⟨400, ProcBody.error "No file uploaded", g, []⟩
  | some file =>
    if file.filename = "" then
      ⟨400, ProcBody.error "No file selected", g, []⟩
    else
      let image_content := file.content
      match extract_text_from_image w.ocr image_content with
      | Except.error e => ⟨500, ProcBody.error e, g, [Call.ocr image_content]⟩
      | Except.ok none =>
        ⟨500, ProcBody.error "Text extraction failed", g, [Call.ocr image_content]⟩
      | Except.ok (some sanskrit_text) =>
        if sanskrit_text = "" then
          ⟨500, ProcBody.error "Text extraction failed", g, [Call.ocr image_content]⟩
        else
          match transliterate_sanskrit w.translit w.isalpha sanskrit_text with
          | Except.error e => ⟨500, ProcBody.error e, g, [Call.ocr image_content]⟩
          | Except.ok _transliterated_text =>
            match translate_to_english w.gem sanskrit_text with
            | Except.error e =>
              ⟨500, ProcBody.error e, g,
               [Call.ocr image_content, Call.translate sanskrit_text]⟩
            | Except.ok english_text =>
              if english_text = "" then
                ⟨500, ProcBody.error "Translation failed", g,
                 [Call.ocr image_content, Call.translate sanskrit_text]⟩
              else
                match interpret_text w.gem english_text with
                | Except.error e =>
                  ⟨500, ProcBody.error e, g,
                   [Call.ocr image_content, Call.translate sanskrit_text,
                    Call.interpret english_text]⟩
                | Except.ok interpretation =>
                  ⟨200, ProcBody.ok sanskrit_text english_text interpretation,
                   ⟨sanskrit_text, english_text, interpretation⟩,
                   [Call.ocr image_content, Call.translate sanskrit_text,
                    Call.interpret english_text]⟩

/-- JSON body of a `/chatbot` response: `{'error': msg}` or
`{'response': text}`. -/
inductive ChatBody where
  | error (msg : String)
  | response (text : String)
deriving DecidableEq, Repr

/-- Outcome of one `/chatbot` request: HTTP status and JSON body. -/
structure ChatResult where
  status : Nat
  body : ChatBody
deriving DecidableEq, Repr

/-- The `/chatbot` handler (lines 791-805), as a function of the parsed
JSON body (`none` when the body is falsy or has no `message` key) and the
current `global_context`. -/
def chatbot (gem : String → Except String GeminiResponse) (g : Context)
    (data : Option String) : ChatResult :=
  match data with
  | none => ⟨400, ChatBody.error "No message provided"⟩
  | some user_query => ⟨200, ChatBody.response (query_gemini_api gem g user_query)⟩

/-! ### Concrete fixtures used to exercise the definitions -/

/-- A transliteration oracle that leaves its input unchanged. -/
def t_id : String → Except String String := fun s => Except.ok s

/-- A one-entry source-script membership test: only `क` counts as a
source-script (Devanagari) character. -/
def is_deva (c : Char) : Bool := c == 'क'

/-- A one-entry character table of a Devanagari-to-IAST scheme: `क`
becomes `ka`, every other character passes through. -/
def dev_map (c : Char) : List Char := if c = 'क' then ['k', 'a'] else [c]

/-- A transliteration oracle that really transliterates: it applies
`dev_map` characterwise. -/
def t_dev : String → Except String String :=
  fun s => Except.ok (String.mk (s.data.flatMap dev_map))

/-- An OCR exchange that succeeds with one annotation reading `rama`. -/
def ocr_ok : List Nat → Except String OcrResponse :=
  fun _ => Except.ok ⟨none, [some ["rama"]]⟩

/-- An OCR exchange whose response carries no text annotations. -/
def ocr_empty : List Nat → Except String OcrResponse :=
  fun _ => Except.ok ⟨none, []⟩

/-- An OCR exchange whose response carries a top-level endpoint error. -/
def ocr_err_endpoint : List Nat → Except String OcrResponse :=
  fun _ => Except.ok ⟨some "API key not valid", []⟩

/-- An OCR exchange whose network call raises. -/
def ocr_net_down : List Nat → Except String OcrResponse :=
  fun _ => Except.error "connection refused"

/-- A Gemini exchange that always answers with the single text `ok`. -/
def gem_ok : String → Except String GeminiResponse :=
  fun _ => Except.ok ⟨none, [some ["ok"]]⟩

/-- A Gemini exchange whose response shape is missing candidates. -/
def gem_empty : String → Except String GeminiResponse :=
  fun _ => Except.ok ⟨none, []⟩

/-- A Gemini exchange whose network call raises. -/
def gem_down : String → Except String GeminiResponse :=
  fun _ => Except.error "boom"

/-- Oracles for a fully successful pipeline run. -/
def w_ok : Oracles := ⟨ocr_ok, t_id, Char.isAlpha, gem_ok⟩

/-- Oracles whose OCR response has no annotations. -/
def w_empty : Oracles := ⟨ocr_empty, t_id, Char.isAlpha, gem_ok⟩

/-- A concrete uploaded file. -/
def f_png : FilePart := ⟨"page.png", [1, 2]⟩

/-! ### Helper lemmas -/

theorem py_strip_empty : py_strip "" = "" := by decide

theorem py_strip_interp_failed :
    py_strip "Interpretation failed." = "Interpretation failed." := by decide

theorem mem_keep_letters {isalpha : Char → Bool} {s : String} {c : Char}
    (h : c ∈ (keep_letters_space_hyphen isalpha s).data) :
    isalpha c = true ∨ c = ' ' ∨ c = '-' := by
  have hm : c ∈ s.data.filter (fun c => isalpha c || c == ' ' || c == '-') := h
  have hp := (List.mem_filter.mp hm).2
  simp only [Bool.or_eq_true, beq_iff_eq] at hp
  tauto

theorem keep_letters_fixed {isalpha : Char → Bool} {s : String}
    (h : ∀ c ∈ s.data, isalpha c = true ∨ c = ' ' ∨ c = '-') :
    keep_letters_space_hyphen isalpha s = s := by
  unfold keep_letters_space_hyphen
  have hf : s.data.filter (fun c => isalpha c || c == ' ' || c == '-') = s.data := by
    refine List.filter_eq_self.mpr ?_
    intro a ha
    rcases h a ha with h1 | h1 | h1 <;> simp [h1]
  rw [hf]

theorem dev_map_passthrough (l : List Char) (h : ∀ c ∈ l, is_deva c = false) :
    l.flatMap dev_map = l := by
  induction l with
  | nil => rfl
  | cons a l ih =>
    have ha : is_deva a = false := h a (List.mem_cons_self a l)
    have hne : ¬ a = 'क' := by simpa [is_deva] using ha
    have ht : l.flatMap dev_map = l := ih (fun c hc => h c (List.mem_cons_of_mem a hc))
    simp [List.flatMap_cons, dev_map, hne, ht]

theorem dev_map_output_free (l : List Char) :
    ∀ c ∈ l.flatMap dev_map, is_deva c = false := by
  intro c hc
  rcases List.mem_flatMap.mp hc with ⟨a, ha, hca⟩
  by_cases hek : a = 'क'
  · subst hek
    simp [dev_map] at hca
    rcases hca with rfl | rfl <;> decide
  · simp [dev_map, hek] at hca
    subst hca
    simp [is_deva, hek]

theorem t_dev_passthrough (s : String) (hs : ∀ c ∈ s.data, is_deva c = false) :
    t_dev s = Except.ok s := by
  unfold t_dev
  rw [dev_map_passthrough s.data hs]

theorem t_dev_output_free (s t : String) (h : t_dev s = Except.ok t) :
    ∀ c ∈ t.data, is_deva c = false := by
  intro c hc
  have ht : String.mk (s.data.flatMap dev_map) = t := by
    simpa [t_dev] using h
  subst ht
  exact dev_map_output_free s.data c hc

theorem parts_infix_gen (a1 a2 b1 b2 b3 b4 b5 b6 s e i q : List Char) :
    (s <:+: a1 ++ (a2 ++ (s ++ (b1 ++ (b2 ++ (e ++ (b3 ++ (b4 ++ (i ++ (b5 ++ (b6 ++ q))))))))))) ∧
    (e <:+: a1 ++ (a2 ++ (s ++ (b1 ++ (b2 ++ (e ++ (b3 ++ (b4 ++ (i ++ (b5 ++ (b6 ++ q))))))))))) ∧
    (i <:+: a1 ++ (a2 ++ (s ++ (b1 ++ (b2 ++ (e ++ (b3 ++ (b4 ++ (i ++ (b5 ++ (b6 ++ q))))))))))) ∧
    (q <:+: a1 ++ (a2 ++ (s ++ (b1 ++ (b2 ++ (e ++ (b3 ++ (b4 ++ (i ++ (b5 ++ (b6 ++ q))))))))))) := by
  refine ⟨⟨a1 ++ a2, b1 ++ (b2 ++ (e ++ (b3 ++ (b4 ++ (i ++ (b5 ++ (b6 ++ q))))))), by simp⟩,
    ⟨a1 ++ a2 ++ s ++ b1 ++ b2, b3 ++ (b4 ++ (i ++ (b5 ++ (b6 ++ q)))), by simp⟩,
    ⟨a1 ++ a2 ++ s ++ b1 ++ b2 ++ e ++ b3 ++ b4, b5 ++ (b6 ++ q), by simp⟩,
    ⟨a1 ++ a2 ++ s ++ b1 ++ b2 ++ e ++ b3 ++ b4 ++ i ++ b5 ++ b6, [], by simp⟩⟩

theorem chat_prompt_contains (g : Context) (q : String) :
    g.sanskrit_text.data <:+: (chat_prompt g q).data ∧
    g.english_text.data <:+: (chat_prompt g q).data ∧
    g.interpretation.data <:+: (chat_prompt g q).data ∧
    q.data <:+: (chat_prompt g q).data := by
  simp only [chat_prompt, String.data_append, List.append_assoc]
  exact parts_infix_gen _ _ _ _ _ _ _ _ _ _ _ _

theorem process_image_success_inv (file : FilePart) (w : Oracles) (g : Context)
    (body : ProcBody) (g' : Context) (calls : List Call)
    (h : process_image (some file) w g = ⟨200, body, g', calls⟩) :
    ∃ S E I, body = ProcBody.ok S E I ∧ g' = ⟨S, E, I⟩ ∧
      calls = [Call.ocr file.content, Call.translate S, Call.interpret E] ∧
      extract_text_from_image w.ocr file.content = Except.ok (some S) ∧
      translate_to_english w.gem S = Except.ok E ∧
      interpret_text w.gem E = Except.ok I := by
  by_cases hf : file.filename = ""
  · simp [process_image, hf] at h
  · cases hE : extract_text_from_image w.ocr file.content with
    | error e => simp [process_image, hf, hE] at h
    | ok so =>
      cases so with
      | none => simp [process_image, hf, hE] at h
      | some st =>
        by_cases hst : st = ""
        · simp [process_image, hf, hE, hst] at h
        · cases hT : transliterate_sanskrit w.translit w.isalpha st with
          | error e => simp [process_image, hf, hE, hst, hT] at h
          | ok u =>
            cases hTr : translate_to_english w.gem st with
            | error e => simp [process_image, hf, hE, hst, hT, hTr] at h
            | ok et =>
              by_cases het : et = ""
              · simp [process_image, hf, hE, hst, hT, hTr, het] at h
              · cases hI : interpret_text w.gem et with
                | error e => simp [process_image, hf, hE, hst, hT, hTr, het, hI] at h
                | ok itp =>
                  simp only [process_image, hf, hE, hst, hT, hTr, het, hI,
                    if_neg, ite_false, ProcResult.mk.injEq, true_and] at h
                  exact ⟨st, et, itp, h.1.symm, h.2.1.symm, h.2.2.symm,
                    rfl, hTr, hI⟩

/-! ### Claims -/

/-- Claim C1: for every input string on which the Script Normalizer
`transliterate_sanskrit` succeeds, every character of its output is an
alphabetic character (in the sense of the host `isalpha` predicate), a
space, or a hyphen; no other character appears in the output. -/
theorem transliterate_only_letters_space_hyphen
    (translit : String → Except String String) (isalpha : Char → Bool)
    (t out : String)
    (h : transliterate_sanskrit translit isalpha t = Except.ok out) :
    ∀ c ∈ out.data, isalpha c = true ∨ c = ' ' ∨ c = '-' := by
  intro c hc
  unfold transliterate_sanskrit at h
  cases htr : translit t with
  | error e => rw [htr] at h; exact absurd h (by simp)
  | ok u =>
    rw [htr] at h
    simp only [Except.ok.injEq] at h
    subst h
    exact mem_keep_letters hc

/-- Witness for C1 at a concrete input: the normalizer maps
`ab1 c-.` to `ab c-`, whose characters are letters, spaces or hyphens. -/
theorem transliterate_only_letters_space_hyphen_check :
    transliterate_sanskrit t_id Char.isAlpha "ab1 c-." = Except.ok "ab c-" ∧
    ∀ c ∈ ("ab c-" : String).data, Char.isAlpha c = true ∨ c = ' ' ∨ c = '-' :=
  ⟨by decide,
   transliterate_only_letters_space_hyphen t_id Char.isAlpha "ab1 c-." "ab c-" (by decide)⟩

/-- Claim C2: the Script Normalizer is idempotent: whenever
`transliterate_sanskrit` succeeds, applying it to its own output returns
that output unchanged.  The third-party scheme is characterised by a set
of source-script characters (`isdeva`) and two facts that hold of any
native-to-Latin transliteration: it maps a string containing no
source-script character to itself (`hid`: characters outside the source
scheme pass through), and its output never contains a source-script
character (`hout`: every source character is mapped to Latin).  Nothing
is assumed about `isalpha`, which may hold of source-script letters. -/
theorem transliterate_idempotent
    (translit : String → Except String String) (isalpha isdeva : Char → Bool)
    (hid : ∀ s : String, (∀ c ∈ s.data, isdeva c = false) →
      translit s = Except.ok s)
    (hout : ∀ s t : String, translit s = Except.ok t →
      ∀ c ∈ t.data, isdeva c = false)
    (t out : String)
    (h : transliterate_sanskrit translit isalpha t = Except.ok out) :
    transliterate_sanskrit translit isalpha out = Except.ok out := by
  unfold transliterate_sanskrit at h
  cases htr : translit t with
  | error e => rw [htr] at h; exact absurd h (by simp)
  | ok u =>
    rw [htr] at h
    simp only [Except.ok.injEq] at h
    subst h
    have hchars : ∀ c ∈ (keep_letters_space_hyphen isalpha u).data,
        isalpha c = true ∨ c = ' ' ∨ c = '-' := fun c hc => mem_keep_letters hc
    have hfree : ∀ c ∈ (keep_letters_space_hyphen isalpha u).data, isdeva c = false := by
      intro c hc
      have hm : c ∈ u.data.filter (fun c => isalpha c || c == ' ' || c == '-') := hc
      exact hout t u htr c (List.mem_filter.mp hm).1
    unfold transliterate_sanskrit
    rw [hid _ hfree]
    show Except.ok (keep_letters_space_hyphen isalpha
      (keep_letters_space_hyphen isalpha u)) = _
    rw [keep_letters_fixed hchars]

/-- Witness for C2 at a concrete input, with a genuinely transliterating
oracle: normalizing `क1-` yields `ka-`, and normalizing `ka-` again
yields `ka-`. -/
theorem transliterate_idempotent_check :
    transliterate_sanskrit t_dev Char.isAlpha "क1-" = Except.ok "ka-" ∧
    transliterate_sanskrit t_dev Char.isAlpha "ka-" = Except.ok "ka-" :=
  ⟨by decide,
   transliterate_idempotent t_dev Char.isAlpha is_deva t_dev_passthrough
     t_dev_output_free "क1-" "ka-" (by decide)⟩

/-- Claim C5 counterexample: on a response in which the OCR endpoint
reports an error, `extract_text_from_image` returns the ordinary value
`None` (`Except.ok none`); no exception escapes the function, so it does
not fail with an extraction error. -/
theorem extract_endpoint_error_cx :
    extract_text_from_image ocr_err_endpoint [0] = Except.ok none := rfl

/-- Claim C5 (amended): for every input on which the OCR endpoint reports
an error or the network call fails, `extract_text_from_image` returns
`None` rather than raising; the caller must test the sentinel. -/
theorem extract_error_returns_none
    (ocr : List Nat → Except String OcrResponse) (img : List Nat)
    (r : OcrResponse) (m : String)
    (h : ocr img = Except.error m ∨ (ocr img = Except.ok r ∧ r.error = some m)) :
    extract_text_from_image ocr img = Except.ok none := by
  rcases h with h | ⟨h1, h2⟩
  · simp [extract_text_from_image, h]
  · simp [extract_text_from_image, h1, h2]

/-- Witness for the amended C5 at a concrete input: a failing network
call makes the extractor return `None`. -/
theorem extract_error_returns_none_check :
    extract_text_from_image ocr_net_down [0] = Except.ok none :=
  extract_error_returns_none ocr_net_down [0] ⟨none, []⟩ "connection refused" (Or.inl rfl)

/-- Claim C3: for every context triple stored by a successful `/process`
call, the prompt a subsequent `/chatbot` call sends to the generative
endpoint (built by `chat_prompt`, which `query_gemini_api` submits)
contains the stored Sanskrit text, English text and interpretation each
verbatim as a substring, together with the user query. -/
theorem process_then_chat_contains
    (file : FilePart) (w : Oracles) (g : Context) (body : ProcBody)
    (g' : Context) (calls : List Call) (q : String)
    (h : process_image (some file) w g = ⟨200, body, g', calls⟩) :
    body = ProcBody.ok g'.sanskrit_text g'.english_text g'.interpretation ∧
    g'.sanskrit_text.data <:+: (chat_prompt g' q).data ∧
    g'.english_text.data <:+: (chat_prompt g' q).data ∧
    g'.interpretation.data <:+: (chat_prompt g' q).data ∧
    q.data <:+: (chat_prompt g' q).data := by
  obtain ⟨S, E, I, hb, hg, -, -, -, -⟩ := process_image_success_inv file w g body g' calls h
  subst hg
  have hc := chat_prompt_contains ⟨S, E, I⟩ q
  exact ⟨hb, hc.1, hc.2.1, hc.2.2.1, hc.2.2.2⟩

/-- Witness for C3 at a concrete run: a successful upload stores
`(rama, ok, ok)` and the chat prompt contains all three plus the query. -/
theorem process_then_chat_contains_check :
    ProcBody.ok "rama" "ok" "ok" = ProcBody.ok "rama" "ok" "ok" ∧
    ("rama" : String).data <:+: (chat_prompt ⟨"rama", "ok", "ok"⟩ "Who is Rama?").data ∧
    ("ok" : String).data <:+: (chat_prompt ⟨"rama", "ok", "ok"⟩ "Who is Rama?").data ∧
    ("ok" : String).data <:+: (chat_prompt ⟨"rama", "ok", "ok"⟩ "Who is Rama?").data ∧
    ("Who is Rama?" : String).data <:+: (chat_prompt ⟨"rama", "ok", "ok"⟩ "Who is Rama?").data :=
  process_then_chat_contains f_png w_ok global_context_init
    (ProcBody.ok "rama" "ok" "ok") ⟨"rama", "ok", "ok"⟩
    [Call.ocr [1, 2], Call.translate "rama", Call.interpret "ok"]
    "Who is Rama?" (by decide)

/-- Claim C4: when the OCR response has no text annotations, `/process`
answers 500 with the error `Text extraction failed`, leaves the context
unchanged, and makes neither the translation nor the interpretation
call (the call trace holds only the OCR call). -/
theorem ocr_no_annotations_500
    (file : FilePart) (w : Oracles) (g : Context) (r : OcrResponse)
    (hname : ¬ file.filename = "")
    (hocr : w.ocr file.content = Except.ok r)
    (herr : r.error = none) (hann : has_ann r = false) :
    process_image (some file) w g =
      ⟨500, ProcBody.error "Text extraction failed", g, [Call.ocr file.content]⟩ := by
  have hfa : first_ann_text r = "" := by
    rcases hr : r.responses with _ | ⟨(_ | (_ | ⟨d, ds⟩)), rest⟩
    · simp [first_ann_text, hr]
    · simp [first_ann_text, hr]
    · simp [first_ann_text, hr]
    · simp [has_ann, hr] at hann
  have hex : extract_text_from_image w.ocr file.content = Except.ok (some "") := by
    simp [extract_text_from_image, hocr, herr, hfa, py_strip_empty]
  simp [process_image, hname, hex]

/-- Witness for C4 at a concrete input: an annotation-free OCR response
makes `/process` answer 500 after the OCR call alone. -/
theorem ocr_no_annotations_500_check :
    process_image (some f_png) w_empty global_context_init =
      ⟨500, ProcBody.error "Text extraction failed", global_context_init,
       [Call.ocr [1, 2]]⟩ :=
  ocr_no_annotations_500 f_png w_empty global_context_init ⟨none, []⟩
    (by decide) rfl rfl rfl

/-- Claim C6: in every successful `/process` run the translation call is
made on the raw extracted OCR text (the text the extractor returned),
not on the normalizer output: the recorded translation call carries
exactly the extraction result. -/
theorem translator_gets_raw_text
    (file : FilePart) (w : Oracles) (g : Context) (body : ProcBody)
    (g' : Context) (calls : List Call)
    (h : process_image (some file) w g = ⟨200, body, g', calls⟩) :
    ∃ S E I, body = ProcBody.ok S E I ∧
      extract_text_from_image w.ocr file.content = Except.ok (some S) ∧
      calls = [Call.ocr file.content, Call.translate S, Call.interpret E] := by
  obtain ⟨S, E, I, hb, -, hc, hx, -, -⟩ := process_image_success_inv file w g body g' calls h
  exact ⟨S, E, I, hb, hx, hc⟩

/-- Witness for C6 at a concrete run: the translation call carries the
raw extracted text `rama`. -/
theorem translator_gets_raw_text_check :
    ∃ S E I, ProcBody.ok "rama" "ok" "ok" = ProcBody.ok S E I ∧
      extract_text_from_image w_ok.ocr f_png.content = Except.ok (some S) ∧
      [Call.ocr [1, 2], Call.translate "rama", Call.interpret "ok"] =
        [Call.ocr f_png.content, Call.translate S, Call.interpret E] :=
  translator_gets_raw_text f_png w_ok global_context_init
    (ProcBody.ok "rama" "ok" "ok") ⟨"rama", "ok", "ok"⟩
    [Call.ocr [1, 2], Call.translate "rama", Call.interpret "ok"] (by decide)

/-- Claim C7: on a generative response whose shape is missing the
candidate/content/parts fields, `interpret_text` returns exactly
`Interpretation failed.`; on a network error or an endpoint-reported
error it instead propagates the exception to the caller. -/
theorem interpret_text_fallback_and_raise
    (gem : String → Except String GeminiResponse) (etext e m : String)
    (r : GeminiResponse) :
    (gem (interpret_prompt etext) = Except.ok r → r.error = none →
      first_candidate_text r = none →
      interpret_text gem etext = Except.ok "Interpretation failed.") ∧
    (gem (interpret_prompt etext) = Except.error e →
      interpret_text gem etext = Except.error e) ∧
    (gem (interpret_prompt etext) = Except.ok r → r.error = some m →
      interpret_text gem etext = Except.error ("Gemini API error: " ++ m)) := by
  refine ⟨?_, ?_, ?_⟩
  · intro h1 h2 h3
    simp [interpret_text, h1, h2, h3, py_strip_interp_failed]
  · intro h1
    simp [interpret_text, h1]
  · intro h1 h2
    simp [interpret_text, h1, h2]

/-- Witness for C7 at a concrete input: a candidate-free response makes
the interpreter return the fallback string. -/
theorem interpret_text_fallback_and_raise_check :
    interpret_text gem_empty "t" = Except.ok "Interpretation failed." :=
  (interpret_text_fallback_and_raise gem_empty "t" "e" "m" ⟨none, []⟩).1 rfl rfl rfl

/-- Claim C8: `query_gemini_api` never propagates an exception: a
network failure with message `e` yields `Error: ` followed by `e`, an
endpoint-reported error yields `Error: ` followed by the raised message,
a shape-missing response yields the literal fallback, and the `/chatbot`
route answers 200 whenever a `message` is supplied. -/
theorem query_gemini_api_total
    (gem : String → Except String GeminiResponse) (g : Context)
    (q e m : String) (r : GeminiResponse) :
    (gem (chat_prompt g q) = Except.error e →
      query_gemini_api gem g q = "Error: " ++ e) ∧
    (gem (chat_prompt g q) = Except.ok r → r.error = some m →
      query_gemini_api gem g q = "Error: " ++ ("Gemini API error: " ++ m)) ∧
    (gem (chat_prompt g q) = Except.ok r → r.error = none →
      first_candidate_text r = none →
      query_gemini_api gem g q = "Sorry, I couldn\x27t generate a response.") ∧
    (chatbot gem g (some q)).status = 200 := by
  refine ⟨?_, ?_, ?_, rfl⟩
  · intro h1
    simp [query_gemini_api, h1]
  · intro h1 h2
    simp [query_gemini_api, h1, h2]
  · intro h1 h2 h3
    simp [query_gemini_api, h1, h2, h3]

/-- Witness for C8 at a concrete input: a raising endpoint makes the
chat responder return an `Error: ` string and `/chatbot` still answers
with status 200. -/
theorem query_gemini_api_total_check :
    query_gemini_api gem_down global_context_init "q" = "Error: " ++ "boom" ∧
    (chatbot gem_down global_context_init (some "q")).status = 200 :=
  ⟨(query_gemini_api_total gem_down global_context_init "q" "boom" "m" ⟨none, []⟩).1 rfl,
   (query_gemini_api_total gem_down global_context_init "q" "boom" "m" ⟨none, []⟩).2.2.2⟩

/-- Claim C9: a `/process` POST with no `file` part, and one whose file
part has an empty filename, each get status 400 with an error body, the
context untouched and no pipeline call made. -/
theorem process_missing_file_400 (w : Oracles) (g : Context) (content : List Nat) :
    process_image none w g = ⟨400, ProcBody.error "No file uploaded", g, []⟩ ∧
    process_image (some ⟨"", content⟩) w g =
      ⟨400, ProcBody.error "No file selected", g, []⟩ :=
  ⟨rfl, by simp [process_image]⟩

/-- Claim C10: the context store is updated atomically: a `/process`
request that does not answer 200 leaves `global_context` exactly as it
was, and a 200 answer stores exactly the triple it returns. -/
theorem context_unchanged_unless_success
    (req : Option FilePart) (w : Oracles) (g : Context) (res : ProcResult)
    (h : process_image req w g = res) :
    (res.status ≠ 200 → res.ctx = g) ∧
    (res.status = 200 → ∃ S E I, res.body = ProcBody.ok S E I ∧ res.ctx = ⟨S, E, I⟩) := by
  cases req with
  | none =>
    subst h
    exact ⟨fun _ => rfl, fun h200 => absurd h200 (by simp [process_image])⟩
  | some file =>
    by_cases hf : file.filename = ""
    · simp only [process_image, hf, if_pos] at h
      subst h
      exact ⟨fun _ => rfl, fun h200 => absurd h200 (by simp [process_image])⟩
    · cases hE : extract_text_from_image w.ocr file.content with
      | error e =>
        simp only [process_image, hf, hE, if_neg] at h
        subst h
        exact ⟨fun _ => rfl, fun h200 => absurd h200 (by simp [process_image])⟩
      | ok so =>
        cases so with
        | none =>
          simp only [process_image, hf, hE, if_neg] at h
          subst h
          exact ⟨fun _ => rfl, fun h200 => absurd h200 (by simp [process_image])⟩
        | some st =>
          by_cases hst : st = ""
          · simp only [process_image, hf, hE, hst, if_neg, if_pos] at h
            subst h
            exact ⟨fun _ => rfl, fun h200 => absurd h200 (by simp [process_image])⟩
          · cases hT : transliterate_sanskrit w.translit w.isalpha st with
            | error e =>
              simp only [process_image, hf, hE, hst, hT, if_neg] at h
              subst h
              exact ⟨fun _ => rfl, fun h200 => absurd h200 (by simp [process_image])⟩
            | ok u =>
              cases hTr : translate_to_english w.gem st with
              | error e =>
                simp only [process_image, hf, hE, hst, hT, hTr, if_neg] at h
                subst h
                exact ⟨fun _ => rfl, fun h200 => absurd h200 (by simp [process_image])⟩
              | ok et =>
                by_cases het : et = ""
                · simp only [process_image, hf, hE, hst, hT, hTr, het,
                    if_neg, if_pos] at h
                  subst h
                  exact ⟨fun _ => rfl, fun h200 => absurd h200 (by simp [process_image])⟩
                · cases hI : interpret_text w.gem et with
                  | error e =>
                    simp only [process_image, hf, hE, hst, hT, hTr, het, hI,
                      if_neg] at h
                    subst h
                    exact ⟨fun _ => rfl, fun h200 => absurd h200 (by simp [process_image])⟩
                  | ok itp =>
                    simp only [process_image, hf, hE, hst, hT, hTr, het, hI,
                      if_neg] at h
                    subst h
                    exact ⟨fun hne => absurd rfl hne,
                      fun _ => ⟨st, et, itp, rfl, rfl⟩⟩

/-- Witness for C10 at a concrete failing run: a 500 answer leaves the
stored context `(a, b, c)` untouched. -/
theorem context_unchanged_unless_success_check :
    process_image (some f_png) w_empty ⟨"a", "b", "c"⟩ =
      ⟨500, ProcBody.error "Text extraction failed", ⟨"a", "b", "c"⟩,
       [Call.ocr [1, 2]]⟩ ∧
    (ProcResult.mk 500 (ProcBody.error "Text extraction failed") ⟨"a", "b", "c"⟩
      [Call.ocr [1, 2]]).ctx = ⟨"a", "b", "c"⟩ :=
  ⟨by decide,
   (context_unchanged_unless_success (some f_png) w_empty ⟨"a", "b", "c"⟩
     ⟨500, ProcBody.error "Text extraction failed", ⟨"a", "b", "c"⟩,
      [Call.ocr [1, 2]]⟩ (by decide)).1 (by decide)⟩

end Vedalipi
